import Mathlib

/-!
Shallow embedding of `plex_summarizer` (src/config.py, src/exceptions.py,
src/main.py) for checking the repository's specification.

Modelling conventions:
* Python values flowing through the TMDB code are modelled by `Json`
  (JSON responses, `None` as `Json.null`); request parameter values by
  `PVal` (the only parameter values the program builds are strings,
  ints and `None`).
* Python exceptions are modelled by `PyErr`; a computation that may
  raise and that touches process state is a function `St → Res α`
  (`Res` carries the state in both the normal and the raising case,
  since Python exceptions do not roll back state).
* The external world (TMDB HTTP transport, Plex write-backs, the
  process environment) is a parameter (`External`, `OsEnv`).
* `St` additionally records effect traces (transport calls,
  `make_tmdb_request` invocations, Plex summary writes) so that
  call-count properties of the spec can be stated.
* Core string routines (`str.replace`, substring test, comparison,
  joining) are re-implemented structurally so that they compute inside
  the kernel; they model the corresponding Python built-ins.
-/

/-- Substring helper: `isPrefixChars p s` is true iff `p` is a prefix of `s`. -/
def isPrefixChars : List Char → List Char → Bool
  | [], _ => true
  | _ :: _, [] => false
  | p :: ps, c :: cs => (p.toNat == c.toNat) && isPrefixChars ps cs

/-- Substring helper: `containsChars s p` is true iff `p` occurs inside `s`. -/
def containsChars : List Char → List Char → Bool
  | _, [] => true
  | [], _ :: _ => false
  | c :: t, p :: ps => isPrefixChars (p :: ps) (c :: t) || containsChars t (p :: ps)

/-- Models the Python containment test `pat in s` on strings. -/
def strContains (s pat : String) : Bool := containsChars s.data pat.data

/-- Structural `List.drop` (kernel-computable). -/
def dropPre : Nat → List Char → List Char
  | 0, l => l
  | _ + 1, [] => []
  | n + 1, _ :: t => dropPre n t

/-- Fuel-indexed worker for `strReplace`; the fuel is always at least the
length of the scanned list, so it never runs out. -/
def replaceLoop (pat rep : List Char) : Nat → List Char → List Char
  | 0, s => s
  | _ + 1, [] => []
  | fuel + 1, c :: t =>
    if isPrefixChars pat (c :: t) then rep ++ replaceLoop pat rep fuel (dropPre (pat.length - 1) t)
    else c :: replaceLoop pat rep fuel t

/-- Models Python `s.replace(pat, rep)` (all non-overlapping occurrences,
left to right) for a non-empty pattern. -/
def strReplace (s pat rep : String) : String :=
  if pat.data.isEmpty then s else String.mk (replaceLoop pat.data rep.data s.data.length s.data)

/-- Lexicographic comparison of char lists by code point. -/
def listLtChars : List Char → List Char → Bool
  | [], [] => false
  | [], _ :: _ => true
  | _ :: _, [] => false
  | a :: as, b :: bs =>
    if a.toNat < b.toNat then true
    else if b.toNat < a.toNat then false
    else listLtChars as bs

/-- Models Python `s < t` on strings (code-point lexicographic order). -/
def strLt (s t : String) : Bool := listLtChars s.data t.data

/-- Models Python `s.startswith(p)` (kernel-computable). -/
def strStartsWith (s p : String) : Bool := isPrefixChars p.data s.data

/-- Models Python `sep.join(l)`. -/
def strJoin (sep : String) : List String → String
  | [] => ""
  | [x] => x
  | x :: y :: t => x ++ sep ++ strJoin sep (y :: t)

/-- Request-parameter values built by the program: strings, ints and
Python `None` (`src/main.py` only ever puts `media_item.title`,
`media_item.year` and TMDB ids into parameter dicts). -/
inductive PVal where
  | str (s : String)
  | num (n : Int)
  | none
deriving DecidableEq, Repr

/-- JSON values, modelling the bodies returned by `response.json()` and
the Python objects derived from them (`None` is `Json.null`). -/
inductive Json where
  | null
  | bool (b : Bool)
  | num (n : Int)
  | str (s : String)
  | arr (l : List Json)
  | obj (l : List (String × Json))

/-- Python truthiness of a JSON-shaped value (`if not x: ...`). -/
def Json.truthy : Json → Bool
  | .null => false
  | .bool b => b
  | .num n => n != 0
  | .str s => !s.isEmpty
  | .arr l => !l.isEmpty
  | .obj l => !l.isEmpty

/-- Python exceptions relevant to the program. -/
inductive PyErr where
  | keyError (k : String)
  | typeError (m : String)
  | attributeError (m : String)
  | tmdbError (m : String)
  | plexError (m : String)
  | configError (m : String)
  | generic (m : String)
deriving DecidableEq, Repr

/-- Models Python `str(e)` on an exception (for `KeyError` it is the
`repr` of the missing key, i.e. the key in quotes). -/
def pyStr : PyErr → String
  | .keyError k => "'" ++ k ++ "'"
  | .typeError m => m
  | .attributeError m => m
  | .tmdbError m => m
  | .plexError m => m
  | .configError m => m
  | .generic m => m

/-- Models Python `d[k]` on a JSON-shaped value. -/
def jsonGetItem : Json → String → Except PyErr Json
  | .obj l, k =>
    match l.lookup k with
    | some v => .ok v
    | Option.none => .error (.keyError k)
  | .arr _, _ => .error (.typeError "list indices must be integers or slices, not str")
  | .str _, _ => .error (.typeError "string indices must be integers")
  | _, _ => .error (.typeError "object is not subscriptable")

/-- Models Python `d.get(k, default)` on a JSON-shaped value. -/
def jsonGetDefault : Json → String → Json → Except PyErr Json
  | .obj l, k, d => .ok ((l.lookup k).getD d)
  | .arr _, _, _ => .error (.attributeError "'list' object has no attribute 'get'")
  | .str _, _, _ => .error (.attributeError "'str' object has no attribute 'get'")
  | _, _, _ => .error (.attributeError "object has no attribute 'get'")

/-- Models Python `next(iter(x), None)` on a JSON-shaped value. -/
def firstOrNone : Json → Except PyErr Json
  | .arr [] => .ok .null
  | .arr (x :: _) => .ok x
  | .obj [] => .ok .null
  | .obj ((k, _) :: _) => .ok (.str k)
  | .str s =>
    match s.data with
    | [] => .ok .null
    | c :: _ => .ok (.str (String.mk [c]))
  | _ => .error (.typeError "object is not iterable")

/-- Models the Python comparison `summary != value` where `summary` is a
`str` and `value` an arbitrary JSON-shaped object: values of a different
type are always unequal. -/
def strNeJson (s : String) : Json → Bool
  | .str t => s != t
  | _ => true

/-- A Plex media item as read by the program: `title`, `type`
(`"movie"`/`"show"`), optional `year`, current `summary`, and the ids of
its `guids` (`src/main.py` reads exactly these attributes). -/
structure Item where
  title : String
  type : String
  year : Option Int
  summary : String
  guids : List String
deriving DecidableEq, Repr

/-- Mirrors `src/config.py` (`Config` dataclass with its defaults). -/
structure Config where
  plex_url : String
  plex_token : String
  tmdb_api_key : String
  max_workers : Nat := 10
  verify_ssl : Bool := false
  tmdb_base_url : String := "https://api.themoviedb.org/3"

/-- Outcome of one HTTP transport attempt: a status/body response, or a
transport-level failure (`requests.RequestException` with no response). -/
inductive HttpResp where
  | resp (status : Nat) (body : Json)
  | netErr (msg : String)

/-- The external collaborators: TMDB transport behaviour (by url,
params and extra keyword options) and the Plex write-back behaviour
(`media_item.edit`, returning an exception when the write raises). -/
structure External where
  respond : String → List (String × PVal) → List (String × PVal) → HttpResp
  plexEdit : Item → Json → Option PyErr

/-- Cache keys of `_make_tmdb_request_cached`: `(endpoint, param_items)`. -/
abbrev CacheKey := String × List (String × PVal)

/-- Process state: the `lru_cache` content (most recent first, with its
current size), plus effect traces — transport-level calls (url, params,
extra kwargs), `make_tmdb_request` invocations (endpoint, params), and
Plex summary writes (item, new value). -/
structure St where
  cache : List (CacheKey × Json) := []
  cacheSize : Nat := 0
  transport : List (String × List (String × PVal) × List (String × PVal)) := []
  requests : List (String × List (String × PVal)) := []
  writes : List (Item × Json) := []

/-- The initial (empty) process state. -/
def initSt : St := {}

/-- Result of a stateful, possibly raising computation: Python
exceptions do not roll back state, so the state is carried in both
cases. -/
inductive Res (α : Type) where
  | ok (a : α) (s : St)
  | err (e : PyErr) (s : St)

/-- The state a computation ends in, whether or not it raised. -/
def Res.state : Res α → St
  | .ok _ s => s
  | .err _ s => s

/-- A stateful, possibly raising computation. -/
abbrev M (α : Type) := St → Res α

/-- The `maxsize` of the `@lru_cache` on `_make_tmdb_request_cached`. -/
def lruMaxsize : Nat := 1024

/-- Finds `key` in the cache, returning its value and the remaining
entries with that entry removed. -/
def cacheFind : List (CacheKey × Json) → CacheKey → Option (Json × List (CacheKey × Json))
  | [], _ => Option.none
  | (k, v) :: t, key =>
    if k = key then some (v, t)
    else
      match cacheFind t key with
      | some (v', t') => some (v', (k, v) :: t')
      | Option.none => Option.none

/-- Cache lookup with LRU reordering: a hit moves the entry to the
most-recent position (the front). -/
def cacheLookup (c : List (CacheKey × Json)) (key : CacheKey) : Option (Json × List (CacheKey × Json)) :=
  match cacheFind c key with
  | some (v, rest) => some (v, (key, v) :: rest)
  | Option.none => Option.none

/-- Cache insertion: evicts the least-recently-used entry (the last one)
when the cache is full, as `functools.lru_cache(maxsize=1024)` does. -/
def cachePut (c : List (CacheKey × Json)) (size : Nat) (key : CacheKey) (v : Json) :
    List (CacheKey × Json) × Nat :=
  if size ≥ lruMaxsize then ((key, v) :: c.dropLast, size) else ((key, v) :: c, size + 1)

/-- Insertion sort step for parameter pairs, ordered by key. -/
def sortIns (p : String × PVal) : List (String × PVal) → List (String × PVal)
  | [] => [p]
  | q :: t => if strLt p.1 q.1 then p :: q :: t else q :: sortIns p t

/-- Models `tuple(sorted(params.items()))` (dict keys are distinct, so
only the key order matters). -/
def sortParams (l : List (String × PVal)) : List (String × PVal) := l.foldr sortIns []

/-- The URL built by `make_tmdb_request`: `f"{base}/{endpoint}"`. -/
def mkUrl (cfg : Config) (endpoint : String) : String := cfg.tmdb_base_url ++ "/" ++ endpoint

/-- The message of the `requests.HTTPError` raised by
`response.raise_for_status()` on a non-2xx status (the exact text is a
detail of the external `requests` library; only its shape matters). -/
def httpMsg (status : Nat) (url : String) : String :=
  "HTTP " ++ (String.mk (Nat.toDigits 10 status)) ++ " for url: " ++ url

/-- Models one `self.session.get(url, params=..., **kwargs)` followed by
`raise_for_status()` and `.json()`, wrapped in the
`except requests.RequestException` → `TMDBError` conversion that both
branches of `src/main.py` perform. The transport attempt is recorded in
the `transport` trace. -/
def rawRequest (x : External) (cfg : Config) (endpoint : String)
    (params : List (String × PVal)) (kwargs : List (String × PVal)) : M Json := fun s =>
  let url := mkUrl cfg endpoint
  let s1 : St := { s with transport := s.transport ++ [(url, params, kwargs)] }
  match x.respond url params kwargs with
  | .netErr m => .err (.tmdbError ("TMDB API request failed: " ++ m)) s1
  | .resp status body =>
    if status ≥ 400 then .err (.tmdbError ("TMDB API request failed: " ++ httpMsg status url)) s1
    else .ok body s1

/-- Models `_make_tmdb_request_cached` together with its
`@lru_cache(maxsize=1024)` decorator: a hit returns the memoized value
(moving it to the most-recent position) without a transport call; a miss
performs the request and memoizes only a successful result (`lru_cache`
does not cache raised exceptions). -/
def make_tmdb_request_cached (x : External) (cfg : Config) (endpoint : String)
    (param_items : List (String × PVal)) : M Json := fun s =>
  match cacheLookup s.cache (endpoint, param_items) with
  | some (v, c') => .ok v { s with cache := c' }
  | Option.none =>
    match rawRequest x cfg endpoint param_items [] s with
    | .ok v s1 =>
      let cn := cachePut s1.cache s1.cacheSize (endpoint, param_items) v
      .ok v { s1 with cache := cn.1, cacheSize := cn.2 }
    | .err e s1 => .err e s1

/-- Models `make_tmdb_request`: extra keyword arguments beyond `params`
bypass the cache; otherwise the sorted parameter pairs are looked up in
the cache. The invocation is recorded in the `requests` trace. -/
def make_tmdb_request (x : External) (cfg : Config) (endpoint : String)
    (params : List (String × PVal)) (kwargs : List (String × PVal)) : M Json := fun s =>
  let s1 : St := { s with requests := s.requests ++ [(endpoint, params)] }
  if kwargs.isEmpty then make_tmdb_request_cached x cfg endpoint (sortParams params) s1
  else rawRequest x cfg endpoint params kwargs s1

/-- Worker loop of `_get_tmdb_id`: first guid whose id contains
`"tmdb"`, with the `"tmdb://"` scheme text removed. -/
def get_tmdb_id_go : List String → Option String
  | [] => Option.none
  | g :: t => if strContains g "tmdb" then some (strReplace g "tmdb://" "") else get_tmdb_id_go t

/-- Models `_get_tmdb_id`. -/
def get_tmdb_id (item : Item) : Option String := get_tmdb_id_go item.guids

/-- Models `"movie" if media_item.type == "movie" else "tv"`. -/
def mediaTypeOf (item : Item) : String := if item.type = "movie" then "movie" else "tv"

/-- Models `getattr(media_item, "year", None)` as a parameter value. -/
def yearPVal : Option Int → PVal
  | some y => .num y
  | Option.none => PVal.none

/-- The parameter dict built by `_search_tmdb`:
`{"query": media_item.title, "year": getattr(media_item, "year", None)}`. -/
def searchParams (item : Item) : List (String × PVal) :=
  [("query", PVal.str item.title), ("year", yearPVal item.year)]

/-- Models `_search_tmdb`: one search request, then fall back to `None`
on a falsy response, else take `next(iter(response.get("results", [])), None)`. -/
def search_tmdb (x : External) (cfg : Config) (item : Item) : M Json := fun s =>
  match make_tmdb_request x cfg ("search/" ++ mediaTypeOf item) (searchParams item) [] s with
  | .err e s1 => .err e s1
  | .ok response s1 =>
    if response.truthy = false then .ok Json.null s1
    else
      match jsonGetDefault response "results" (Json.arr []) with
      | .error e => .err e s1
      | .ok results =>
        match firstOrNone results with
        | .error e => .err e s1
        | .ok r => .ok r s1

/-- Models `_get_tmdb_data`: a falsy TMDB id (`None` or `""`) falls back
to search, otherwise a direct `movie/{id}` / `tv/{id}` lookup. -/
def get_tmdb_data (x : External) (cfg : Config) (item : Item) : M Json := fun s =>
  match get_tmdb_id item with
  | Option.none => search_tmdb x cfg item s
  | some tid =>
    if tid = "" then search_tmdb x cfg item s
    else make_tmdb_request x cfg (mediaTypeOf item ++ "/" ++ tid) [] [] s

/-- Models `media_item.edit(**{"summary.value": ...})`: the write call is
recorded, then the external edit either succeeds or raises. -/
def plexEditAct (x : External) (item : Item) (v : Json) : M Unit := fun s =>
  let s1 : St := { s with writes := s.writes ++ [(item, v)] }
  match x.plexEdit item v with
  | Option.none => .ok () s1
  | some e => .err e s1

/-- The body of `_update_item`'s `try` block. -/
def update_item_body (x : External) (cfg : Config) (item : Item) : M (String × String) := fun s =>
  match get_tmdb_data x cfg item s with
  | .err e s1 => .err e s1
  | .ok tmdb_data s1 =>
    if tmdb_data.truthy = false then .ok (item.title, "No TMDB match found") s1
    else
      match jsonGetItem tmdb_data "overview" with
      | .error e => .err e s1
      | .ok ov =>
        if strNeJson item.summary ov then
          match plexEditAct x item ov s1 with
          | .ok _ s2 => .ok (item.title, "Updated") s2
          | .err e s2 => .err e s2
        else .ok (item.title, "No change needed") s1

/-- Models `_update_item`: the whole body runs under
`try ... except Exception as e: return title, f"Error: {e}"`. -/
def update_item (x : External) (cfg : Config) (item : Item) : M (String × String) := fun s =>
  match update_item_body x cfg item s with
  | .ok r s1 => .ok r s1
  | .err e s1 => .ok (item.title, "Error: " ++ pyStr e) s1

/-- Models `_process_section`'s collection loop: one `_update_item` call
per enumerated item; a raising future is logged and skipped (its result
is not appended) while the loop continues. Pool completion order is
modelled as submission order. -/
def process_section (x : External) (cfg : Config) : List Item → M (List (String × String))
  | [] => fun s => .ok [] s
  | item :: rest => fun s =>
    match update_item x cfg item s with
    | .ok r s1 =>
      match process_section x cfg rest s1 with
      | .ok l s2 => .ok (r :: l) s2
      | .err e s2 => .err e s2
    | .err _ s1 => process_section x cfg rest s1

/-- A Plex library section: title, kind, and its items. -/
structure Section where
  title : String
  type : String
  items : List Item

/-- Models `update_library`: sections whose kind is neither `"movie"`
nor `"show"` are skipped; the others are processed in order
(`_log_results` only logs and is not modelled). -/
def update_library (x : External) (cfg : Config) : List Section → M Unit
  | [] => fun s => .ok () s
  | sec :: rest => fun s =>
    if sec.type = "movie" ∨ sec.type = "show" then
      match process_section x cfg sec.items s with
      | .ok _ s1 => update_library x cfg rest s1
      | .err e s1 => .err e s1
    else update_library x cfg rest s

/-- The process environment: the three environment variables, whether a
`PlexServer` construction against a given url succeeds, the text of the
underlying connection error when it does not, and the library content
served to a successful connection. -/
structure OsEnv where
  plex_url : Option String
  plex_token : Option String
  tmdb_api_key : Option String
  plexConnect : Option String → Bool
  connErrMsg : String
  sections : List Section

/-- The `Config` built inside `main()` from `os.getenv(..., "")`. -/
def mkConfig (env : OsEnv) : Config :=
  { plex_url := env.plex_url.getD "", plex_token := env.plex_token.getD "",
    tmdb_api_key := env.tmdb_api_key.getD "" }

/-- The required-field list of `_validate_config`. -/
def required_fields : List String := ["plex_url", "plex_token", "tmdb_api_key"]

/-- Models `getattr(self.config, field)` for the validated fields. -/
def fieldVal (cfg : Config) : String → String
  | "plex_url" => cfg.plex_url
  | "plex_token" => cfg.plex_token
  | "tmdb_api_key" => cfg.tmdb_api_key
  | _ => ""

/-- Models `[field for field in required if not getattr(self.config, field)]`. -/
def missing_fields (cfg : Config) : List String :=
  required_fields.filter (fun f => fieldVal cfg f = "")

/-- Observable outcome of one process run: exit code, the message the
interpreter leaves on exit, and the final process state (whose effect
traces witness how much item processing happened). -/
structure ProcOutcome where
  exitCode : Nat
  message : String
  finalSt : St

/-- Models the interpreter's output for an exception that escapes to the
top level uncaught: a traceback, which in particular does not carry the
`"Error: "` label that `main()`'s handler adds. -/
def uncaughtMsg (e : String) : String := "Traceback (most recent call last):\n" ++ e

/-- Models `main()`: config construction, `PlexSummaryUpdater` init
(validation, then the Plex connection), then `update_library`, all under
`except Exception as e: raise SystemExit(f"Error: {e}")` (a `SystemExit`
with a message exits with code 1). -/
def runMain (env : OsEnv) (x : External) : ProcOutcome :=
  let cfg := mkConfig env
  if missing_fields cfg ≠ [] then
    { exitCode := 1,
      message := "Error: " ++ "Missing required configuration: " ++ strJoin ", " (missing_fields cfg),
      finalSt := initSt }
  else if env.plexConnect (some cfg.plex_url) = false then
    { exitCode := 1, message := "Error: " ++ "Failed to connect to Plex: " ++ env.connErrMsg,
      finalSt := initSt }
  else
    match update_library x cfg env.sections initSt with
    | .ok _ s => { exitCode := 0, message := "", finalSt := s }
    | .err e s => { exitCode := 1, message := "Error: " ++ pyStr e, finalSt := s }

/-- Models one process run including the module-level
`plex = PlexServer(PLEX_URL, PLEX_TOKEN)` executed at import time: if
that construction fails, the exception is uncaught (no handler exists at
module level) and the process dies with a traceback before `main()`
runs. -/
def runProcess (env : OsEnv) (x : External) : ProcOutcome :=
  if env.plexConnect env.plex_url = false then
    { exitCode := 1, message := uncaughtMsg env.connErrMsg, finalSt := initSt }
  else runMain env x

/-- Driver for stating cache properties: issues a list of
`make_tmdb_request` calls (endpoint, params, extra kwargs) in order,
continuing past per-request exceptions, and returns the final state. -/
def runRequests (x : External) (cfg : Config) : List (String × List (String × PVal) × List (String × PVal)) → St → St
  | [], s => s
  | (e, p, kw) :: rest, s => runRequests x cfg rest (make_tmdb_request x cfg e p kw s).state

/-- The parameter list built by `_search_tmdb` is already sorted by key. -/
theorem sortParams_searchParams (item : Item) : sortParams (searchParams item) = searchParams item := by
  have h : strLt "query" "year" = true := by decide
  simp [sortParams, searchParams, sortIns, h]

/-- `rawRequest` always ends in the starting state with exactly the one
transport attempt appended, whatever the transport answers. -/
theorem rawRequest_state (x : External) (cfg : Config) (e : String)
    (p kw : List (String × PVal)) (s : St) :
    (rawRequest x cfg e p kw s).state = { s with transport := s.transport ++ [(mkUrl cfg e, p, kw)] } := by
  unfold rawRequest
  dsimp only
  cases h : x.respond (mkUrl cfg e) p kw with
  | netErr m => simp [h, Res.state]
  | resp status body => simp [h]; split <;> simp [Res.state]

/-- The cached request layer never touches the `writes` trace. -/
theorem make_tmdb_request_cached_writes (x : External) (cfg : Config) (e : String)
    (p : List (String × PVal)) (s : St) :
    (make_tmdb_request_cached x cfg e p s).state.writes = s.writes := by
  unfold make_tmdb_request_cached
  cases h : cacheLookup s.cache (e, p) with
  | none =>
    cases h2 : rawRequest x cfg e p [] s with
    | ok v s1 =>
      have := rawRequest_state x cfg e p [] s
      rw [h2] at this
      simp [Res.state] at this ⊢
      simp [this]
    | err er s1 =>
      have := rawRequest_state x cfg e p [] s
      rw [h2] at this
      simp [Res.state] at this ⊢
      simp [this]
  | some vc => rcases vc with ⟨v, c'⟩; rfl

/-- The cached request layer never touches the `requests` trace. -/
theorem make_tmdb_request_cached_requests (x : External) (cfg : Config) (e : String)
    (p : List (String × PVal)) (s : St) :
    (make_tmdb_request_cached x cfg e p s).state.requests = s.requests := by
  unfold make_tmdb_request_cached
  cases h : cacheLookup s.cache (e, p) with
  | none =>
    cases h2 : rawRequest x cfg e p [] s with
    | ok v s1 =>
      have := rawRequest_state x cfg e p [] s
      rw [h2] at this
      simp [Res.state] at this ⊢
      simp [this]
    | err er s1 =>
      have := rawRequest_state x cfg e p [] s
      rw [h2] at this
      simp [Res.state] at this ⊢
      simp [this]
  | some vc => rcases vc with ⟨v, c'⟩; rfl

/-- Every `make_tmdb_request` invocation appends exactly one entry to the
`requests` trace. -/
theorem make_tmdb_request_requests (x : External) (cfg : Config) (e : String)
    (p kw : List (String × PVal)) (s : St) :
    (make_tmdb_request x cfg e p kw s).state.requests = s.requests ++ [(e, p)] := by
  unfold make_tmdb_request
  by_cases h : kw.isEmpty <;> simp [h]
  · rw [make_tmdb_request_cached_requests]
  · have := rawRequest_state x cfg e p kw { s with requests := s.requests ++ [(e, p)] }
    rw [this]

/-- `make_tmdb_request` never touches the `writes` trace. -/
theorem make_tmdb_request_writes (x : External) (cfg : Config) (e : String)
    (p kw : List (String × PVal)) (s : St) :
    (make_tmdb_request x cfg e p kw s).state.writes = s.writes := by
  unfold make_tmdb_request
  by_cases h : kw.isEmpty <;> simp [h]
  · rw [make_tmdb_request_cached_writes]
  · have := rawRequest_state x cfg e p kw { s with requests := s.requests ++ [(e, p)] }
    rw [this]

/-- `_search_tmdb` issues exactly one `make_tmdb_request` call: a search
on the item's kind with query = title and year = the item's year value
(null when absent). -/
theorem search_tmdb_requests (x : External) (cfg : Config) (item : Item) (s : St) :
    (search_tmdb x cfg item s).state.requests =
      s.requests ++ [("search/" ++ mediaTypeOf item, searchParams item)] := by
  unfold search_tmdb
  cases h : make_tmdb_request x cfg ("search/" ++ mediaTypeOf item) (searchParams item) [] s with
  | err e s1 =>
    have := make_tmdb_request_requests x cfg ("search/" ++ mediaTypeOf item) (searchParams item) [] s
    rw [h] at this
    simpa [Res.state] using this
  | ok response s1 =>
    have := make_tmdb_request_requests x cfg ("search/" ++ mediaTypeOf item) (searchParams item) [] s
    rw [h] at this
    simp [Res.state] at this
    by_cases ht : response.truthy = false
    · simp [ht, Res.state, this]
    · simp [ht]
      cases hd : jsonGetDefault response "results" (Json.arr []) with
      | error e => simp [hd, Res.state, this]
      | ok results =>
        cases hf : firstOrNone results with
        | error e2 => simp [hd, hf, Res.state, this]
        | ok r => simp [hd, hf, Res.state, this]

/-- `_search_tmdb` never writes to Plex. -/
theorem search_tmdb_writes (x : External) (cfg : Config) (item : Item) (s : St) :
    (search_tmdb x cfg item s).state.writes = s.writes := by
  unfold search_tmdb
  cases h : make_tmdb_request x cfg ("search/" ++ mediaTypeOf item) (searchParams item) [] s with
  | err e s1 =>
    have := make_tmdb_request_writes x cfg ("search/" ++ mediaTypeOf item) (searchParams item) [] s
    rw [h] at this
    simpa [Res.state] using this
  | ok response s1 =>
    have := make_tmdb_request_writes x cfg ("search/" ++ mediaTypeOf item) (searchParams item) [] s
    rw [h] at this
    simp [Res.state] at this
    by_cases ht : response.truthy = false
    · simp [ht, Res.state, this]
    · simp [ht]
      cases hd : jsonGetDefault response "results" (Json.arr []) with
      | error e => simp [hd, Res.state, this]
      | ok results =>
        cases hf : firstOrNone results with
        | error e2 => simp [hd, hf, Res.state, this]
        | ok r => simp [hd, hf, Res.state, this]

/-- Resolution (`_get_tmdb_data`) never writes to Plex. -/
theorem get_tmdb_data_writes (x : External) (cfg : Config) (item : Item) (s : St) :
    (get_tmdb_data x cfg item s).state.writes = s.writes := by
  unfold get_tmdb_data
  cases h : get_tmdb_id item with
  | none => exact search_tmdb_writes x cfg item s
  | some tid =>
    by_cases ht : tid = ""
    · simp [ht]; exact search_tmdb_writes x cfg item s
    · simp [ht]; exact make_tmdb_request_writes x cfg (mediaTypeOf item ++ "/" ++ tid) [] [] s

/-- `strNeJson` is false exactly when the value is the equal string,
mirroring Python `!=` between a `str` and an arbitrary object. -/
theorem strNeJson_eq_false_iff (s : String) (j : Json) : strNeJson s j = false ↔ j = .str s := by
  cases j with
  | str t =>
    simp only [strNeJson, bne_eq_false_iff_eq, Json.str.injEq]
    exact eq_comm
  | null => simp [strNeJson]
  | bool b => simp [strNeJson]
  | num n => simp [strNeJson]
  | arr l => simp [strNeJson]
  | obj l => simp [strNeJson]

/-- A JSON object with a successful key lookup is truthy (non-empty). -/
theorem truthy_of_lookup (l : List (String × Json)) (k : String) (ov : Json)
    (h : l.lookup k = some ov) : (Json.obj l).truthy = true := by
  cases l with
  | nil => simp [List.lookup] at h
  | cons a t => simp [Json.truthy]

/-- Shared configuration for the concrete scenarios below. -/
def cfgW : Config := { plex_url := "p", plex_token := "t", tmdb_api_key := "k" }

/-- C1: for every item for which resolution returns a record carrying a
description (`"overview"`) field and whose Plex write (if one happens)
succeeds: an overview equal to the item's current summary yields outcome
`"No change needed"` with no write, and a differing overview yields
exactly one write of that overview to the item's summary and outcome
`"Updated"`. -/
theorem claim_C1 (x : External) (cfg : Config) (item : Item) (s : St) (v : Json)
    (s' : St) (l : List (String × Json)) (ov : Json)
    (hres : get_tmdb_data x cfg item s = .ok v s')
    (hv : v = .obj l) (hov : l.lookup "overview" = some ov)
    (hedit : x.plexEdit item ov = Option.none) :
    (ov = .str item.summary →
      update_item x cfg item s = .ok (item.title, "No change needed") s' ∧ s'.writes = s.writes)
    ∧ (ov ≠ .str item.summary →
      update_item x cfg item s =
        .ok (item.title, "Updated") { s' with writes := s'.writes ++ [(item, ov)] }
      ∧ s'.writes = s.writes) := by
  have hw : s'.writes = s.writes := by
    have h := get_tmdb_data_writes x cfg item s
    rw [hres] at h
    simpa [Res.state] using h
  have htr : v.truthy = true := hv ▸ truthy_of_lookup l "overview" ov hov
  have hget : jsonGetItem v "overview" = .ok ov := by
    subst hv
    simp [jsonGetItem, hov]
  constructor
  · intro he
    refine ⟨?_, hw⟩
    have hne : strNeJson item.summary ov = false := (strNeJson_eq_false_iff _ _).2 he
    unfold update_item update_item_body
    rw [hres]
    simp [htr, hget, hne]
  · intro hne
    refine ⟨?_, hw⟩
    have hb : strNeJson item.summary ov = true := by
      cases h : strNeJson item.summary ov
      · exact absurd ((strNeJson_eq_false_iff _ _).1 h) hne
      · rfl
    unfold update_item update_item_body
    rw [hres]
    simp [htr, hget, hb, plexEditAct, hedit]

/-- External behaviour for the C1 scenarios: every lookup answers with a
record whose overview is `"new text"`, and Plex writes succeed. -/
def xUpd : External :=
  { respond := fun _ _ _ => .resp 200 (Json.obj [("overview", Json.str "new text")]),
    plexEdit := fun _ _ => Option.none }

/-- Item whose summary differs from the resolved overview. -/
def itemUpd : Item :=
  { title := "W1", type := "movie", year := some 2000, summary := "old", guids := ["tmdb://7"] }

/-- Item whose summary equals the resolved overview. -/
def itemSame : Item :=
  { title := "W2", type := "movie", year := some 2000, summary := "new text", guids := ["tmdb://7"] }

/-- C1 witness: both branches of `claim_C1` at concrete inputs. -/
theorem claim_C1_witness :
    (∃ s', update_item xUpd cfgW itemUpd initSt = .ok ("W1", "Updated") s')
    ∧ (∃ s', update_item xUpd cfgW itemSame initSt = .ok ("W2", "No change needed") s') := by
  constructor
  · exact ⟨_, ((claim_C1 xUpd cfgW itemUpd initSt _ _ [("overview", Json.str "new text")]
      (Json.str "new text") rfl rfl rfl rfl).2 (by simp [itemUpd])).1⟩
  · exact ⟨_, ((claim_C1 xUpd cfgW itemSame initSt _ _ [("overview", Json.str "new text")]
      (Json.str "new text") rfl rfl rfl rfl).1 rfl).1⟩

/-- External behaviour answering every request with an empty search
result list. -/
def xEmptySearch : External :=
  { respond := fun _ _ _ => .resp 200 (Json.obj [("results", Json.arr [])]),
    plexEdit := fun _ _ => Option.none }

/-- Item with no external-ID references. -/
def itemNoGuids : Item :=
  { title := "N", type := "movie", year := Option.none, summary := "s", guids := [] }

/-- C3 counterexample: when resolution finds no record the worker's
outcome string is `"No TMDB match found"`, which is not the claimed
member `"No match found"` of the outcome set (no write occurs, as
claimed). -/
theorem claim_C3_counterexample :
    (∃ s', update_item xEmptySearch cfgW itemNoGuids initSt = .ok ("N", "No TMDB match found") s'
      ∧ s'.writes = [])
    ∧ "No TMDB match found" ≠ "No match found" := by
  refine ⟨⟨_, rfl, rfl⟩, by decide⟩

/-- C3 amended: for every item for which resolution returns a falsy
record (`None` or an empty record), the outcome is exactly
`"No TMDB match found"` and no write call occurs. -/
theorem claim_C3_amended (x : External) (cfg : Config) (item : Item) (s : St) (v : Json) (s' : St)
    (hres : get_tmdb_data x cfg item s = .ok v s') (hfalsy : v.truthy = false) :
    update_item x cfg item s = .ok (item.title, "No TMDB match found") s' ∧ s'.writes = s.writes := by
  have hw : s'.writes = s.writes := by
    have h := get_tmdb_data_writes x cfg item s
    rw [hres] at h
    simpa [Res.state] using h
  refine ⟨?_, hw⟩
  unfold update_item update_item_body
  rw [hres]
  simp [hfalsy]

/-- C3 witness: `claim_C3_amended` applied to a concrete item whose
search comes back with an empty result list. -/
theorem claim_C3_witness :
    ∃ s', update_item xEmptySearch cfgW itemNoGuids initSt = .ok ("N", "No TMDB match found") s' :=
  ⟨_, (claim_C3_amended xEmptySearch cfgW itemNoGuids initSt _ _ rfl rfl).1⟩

/-- C10: for every item for which resolution returns a non-empty record
lacking the `"overview"` key, the missing-key access raises `KeyError`,
the worker converts it, and the outcome is `"Error: 'overview'"` — which
starts with `"Error: "` and is none of the match/update outcomes (and no
write occurs). -/
theorem claim_C10 (x : External) (cfg : Config) (item : Item) (s : St) (v : Json) (s' : St)
    (l : List (String × Json))
    (hres : get_tmdb_data x cfg item s = .ok v s') (hv : v = .obj l) (hne : l ≠ [])
    (hov : l.lookup "overview" = Option.none) :
    update_item x cfg item s = .ok (item.title, "Error: 'overview'") s'
    ∧ s'.writes = s.writes
    ∧ strStartsWith "Error: 'overview'" "Error: " = true
    ∧ "Error: 'overview'" ≠ "No TMDB match found"
    ∧ "Error: 'overview'" ≠ "No match found"
    ∧ "Error: 'overview'" ≠ "Updated"
    ∧ "Error: 'overview'" ≠ "No change needed" := by
  have hw : s'.writes = s.writes := by
    have h := get_tmdb_data_writes x cfg item s
    rw [hres] at h
    simpa [Res.state] using h
  have htr : v.truthy = true := by
    subst hv
    cases l with
    | nil => exact absurd rfl hne
    | cons a t => simp [Json.truthy]
  have hget : jsonGetItem v "overview" = .error (.keyError "overview") := by
    subst hv
    simp [jsonGetItem, hov]
  refine ⟨?_, hw, by decide, by decide, by decide, by decide, by decide⟩
  unfold update_item update_item_body
  rw [hres]
  simp [htr, hget]
  rfl

/-- External behaviour answering lookups with a record that has no
`"overview"` field. -/
def xNoOverview : External :=
  { respond := fun _ _ _ => .resp 200 (Json.obj [("id", Json.num 5)]),
    plexEdit := fun _ _ => Option.none }

/-- C10 witness: `claim_C10` applied to a concrete lookup whose record
lacks the overview field. -/
theorem claim_C10_witness :
    ∃ s', update_item xNoOverview cfgW itemUpd initSt = .ok ("W1", "Error: 'overview'") s' :=
  ⟨_, (claim_C10 xNoOverview cfgW itemUpd initSt _ _ [("id", Json.num 5)] rfl rfl
      (by simp) rfl).1⟩

/-- Every normal result of the worker body carries the item's title as
its first component. -/
theorem update_item_body_fst (x : External) (cfg : Config) (item : Item) (s : St)
    (r : String × String) (s' : St)
    (h : update_item_body x cfg item s = .ok r s') : r.1 = item.title := by
  unfold update_item_body at h
  cases hres : get_tmdb_data x cfg item s with
  | err e s1 =>
    rw [hres] at h
    simp at h
  | ok d s1 =>
    rw [hres] at h
    by_cases ht : d.truthy = false
    · simp [ht] at h
      exact h.1.symm ▸ rfl
    · simp [ht] at h
      cases hj : jsonGetItem d "overview" with
      | error e => simp [hj] at h
      | ok ov =>
        simp [hj] at h
        by_cases hb : strNeJson item.summary ov
        · simp [hb] at h
          cases hp : plexEditAct x item ov s1 with
          | ok u s2 => simp [hp] at h; exact h.1.symm ▸ rfl
          | err e s2 => simp [hp] at h
        · simp [hb] at h
          exact h.1.symm ▸ rfl

/-- The worker is total: whatever the external world does, it returns a
normal `(title, outcome)` result. -/
theorem update_item_ok (x : External) (cfg : Config) (item : Item) (s : St) :
    ∃ r s', update_item x cfg item s = .ok r s' ∧ r.1 = item.title := by
  unfold update_item
  cases h : update_item_body x cfg item s with
  | ok r s1 => exact ⟨r, s1, rfl, update_item_body_fst x cfg item s r s1 h⟩
  | err e s1 => exact ⟨_, s1, rfl, rfl⟩

/-- C4: every exception raised inside the worker body (resolution,
comparison or write) is caught locally and converted into the outcome
`"Error: " ++ str(e)`; the worker never propagates an exception — it
always returns a normal result tagged with the item's title. -/
theorem claim_C4 (x : External) (cfg : Config) (item : Item) (s : St) :
    (∀ e s', update_item_body x cfg item s = .err e s' →
      update_item x cfg item s = .ok (item.title, "Error: " ++ pyStr e) s')
    ∧ ∃ r s', update_item x cfg item s = .ok r s' ∧ r.1 = item.title := by
  constructor
  · intro e s' h
    unfold update_item
    rw [h]
  · exact update_item_ok x cfg item s

/-- External behaviour whose transport always fails with HTTP 500. -/
def x500 : External :=
  { respond := fun _ _ _ => .resp 500 Json.null, plexEdit := fun _ _ => Option.none }

/-- C4 witness: a concrete failing resolution is converted into an
`"Error: ..."` outcome by `claim_C4`. -/
theorem claim_C4_witness :
    ∃ s', update_item x500 cfgW itemNoGuids initSt
      = .ok ("N", "Error: " ++ pyStr (.tmdbError
          "TMDB API request failed: HTTP 500 for url: https://api.themoviedb.org/3/search/movie")) s' :=
  ⟨_, (claim_C4 x500 cfgW itemNoGuids initSt).1
    (.tmdbError "TMDB API request failed: HTTP 500 for url: https://api.themoviedb.org/3/search/movie")
    _ rfl⟩

/-- C6: every item of a section produces exactly one result in the
collected result list — the list has one entry per item, positionally
tagged with that item's title, whether or not the item's own processing
failed internally. -/
theorem claim_C6 (x : External) (cfg : Config) (items : List Item) (s : St) :
    ∃ l s', process_section x cfg items s = .ok l s'
      ∧ l.length = items.length
      ∧ ∀ i (hi : i < items.length) (hl : i < l.length),
          (l.get ⟨i, hl⟩).1 = (items.get ⟨i, hi⟩).title := by
  induction items generalizing s with
  | nil =>
    refine ⟨[], s, rfl, rfl, ?_⟩
    intro i hi
    simp at hi
  | cons item rest ih =>
    obtain ⟨r, s1, hu, hr⟩ := update_item_ok x cfg item s
    obtain ⟨l1, s2, hp, hlen, hidx⟩ := ih s1
    refine ⟨r :: l1, s2, ?_, by simp [hlen], ?_⟩
    · unfold process_section
      rw [hu]
      simp only
      rw [hp]
    · intro i hi hl
      cases i with
      | zero => simpa using hr
      | succ n =>
        simp only [List.get_cons_succ]
        exact hidx n (by simpa using hi) (by simpa using hl)

/-- A second concrete item for the C6 scenario. -/
def itemShow : Item :=
  { title := "S1", type := "show", year := Option.none, summary := "x", guids := [] }

/-- C6 witness: `claim_C6` on a concrete two-item section (one item
updates, the other errors out on its lookup) yields one result per
item. -/
theorem claim_C6_witness :
    ∃ l s', process_section xUpd cfgW [itemUpd, itemShow] initSt = .ok l s' ∧ l.length = 2 := by
  obtain ⟨l, s', h1, h2, _⟩ := claim_C6 xUpd cfgW [itemUpd, itemShow] initSt
  exact ⟨l, s', h1, by simpa using h2⟩

/-- An item "contains a TMDB reference" in the sense the source itself
tests it: some guid id contains the substring `"tmdb"`
(`if "tmdb" in guid.id`). -/
def hasTmdbRef (item : Item) : Bool := item.guids.any (fun g => strContains g "tmdb")

/-- Python truthiness of the optional TMDB id (`if not tmdb_id`). -/
def truthyId : Option String → Bool
  | Option.none => false
  | some s => !s.isEmpty

/-- Item carrying a TMDB guid whose extracted id is empty. -/
def itemEmptyRef : Item :=
  { title := "E", type := "movie", year := Option.none, summary := "s", guids := ["tmdb://"] }

/-- C2 counterexample: the item with guid `"tmdb://"` contains a TMDB
reference by the source's own membership test, yet its extracted id is
the empty string, which is falsy, so resolution issues a search call and
no direct lookup — the claim promises a direct lookup and no search for
every item with such a reference. -/
theorem claim_C2_counterexample :
    hasTmdbRef itemEmptyRef = true
    ∧ get_tmdb_id itemEmptyRef = some ""
    ∧ (get_tmdb_data xEmptySearch cfgW itemEmptyRef initSt).state.requests
        = [("search/movie", [("query", PVal.str "E"), ("year", PVal.none)])] := by
  refine ⟨by decide, by decide, rfl⟩

/-- C2 amended: resolution issues exactly one direct lookup
(`movie/{id}` or `tv/{id}`) and no search call for every item whose
extracted TMDB id is non-empty; for every item whose extracted id is
falsy (no TMDB-tagged guid, or an empty extracted id), it issues exactly
one search call instead. -/
theorem claim_C2_amended (x : External) (cfg : Config) (item : Item) (s : St) :
    (∀ tid, get_tmdb_id item = some tid → tid ≠ "" →
      (get_tmdb_data x cfg item s).state.requests
        = s.requests ++ [(mediaTypeOf item ++ "/" ++ tid, [])])
    ∧ (truthyId (get_tmdb_id item) = false →
      (get_tmdb_data x cfg item s).state.requests
        = s.requests ++ [("search/" ++ mediaTypeOf item, searchParams item)]) := by
  constructor
  · intro tid h hne
    unfold get_tmdb_data
    rw [h]
    simp [hne]
    exact make_tmdb_request_requests x cfg (mediaTypeOf item ++ "/" ++ tid) [] [] s
  · intro h
    unfold get_tmdb_data
    cases hg : get_tmdb_id item with
    | none => exact search_tmdb_requests x cfg item s
    | some tid =>
      rw [hg] at h
      have htid : tid = "" := by simpa [truthyId, String.isEmpty_iff] using h
      simp [htid]
      exact search_tmdb_requests x cfg item s

/-- C2 witness: both branches of `claim_C2_amended` at concrete items —
a direct `movie/7` lookup for the id-carrying item, a single search for
the reference-free item. -/
theorem claim_C2_witness :
    (get_tmdb_data xUpd cfgW itemUpd initSt).state.requests = [("movie/7", [])]
    ∧ (get_tmdb_data xEmptySearch cfgW itemNoGuids initSt).state.requests
        = [("search/movie", [("query", PVal.str "N"), ("year", PVal.none)])] := by
  constructor
  · have h := (claim_C2_amended xUpd cfgW itemUpd initSt).1 "7" rfl (by decide)
    simpa using h
  · have h := (claim_C2_amended xEmptySearch cfgW itemNoGuids initSt).2 (by decide)
    simpa [searchParams, itemNoGuids, yearPVal] using h

/-- A cache miss answered with a non-2xx status makes `make_tmdb_request`
raise `TMDBError` after recording the one transport attempt. -/
theorem make_tmdb_request_err (x : External) (cfg : Config) (e : String)
    (p : List (String × PVal)) (s : St) (status : Nat) (body : Json)
    (hmiss : cacheLookup s.cache (e, sortParams p) = Option.none)
    (hresp : x.respond (mkUrl cfg e) (sortParams p) [] = .resp status body)
    (hst : 400 ≤ status) :
    make_tmdb_request x cfg e p [] s =
      .err (.tmdbError ("TMDB API request failed: " ++ httpMsg status (mkUrl cfg e)))
        { s with requests := s.requests ++ [(e, p)],
                 transport := s.transport ++ [(mkUrl cfg e, sortParams p, [])] } := by
  unfold make_tmdb_request make_tmdb_request_cached rawRequest
  simp [hmiss, hresp, hst]

/-- A cache miss answered with a 2xx status makes `make_tmdb_request`
return the body and memoize it. -/
theorem make_tmdb_request_ok (x : External) (cfg : Config) (e : String)
    (p : List (String × PVal)) (s : St) (status : Nat) (body : Json)
    (hmiss : cacheLookup s.cache (e, sortParams p) = Option.none)
    (hresp : x.respond (mkUrl cfg e) (sortParams p) [] = .resp status body)
    (hst : status < 400) :
    make_tmdb_request x cfg e p [] s =
      .ok body
        { s with requests := s.requests ++ [(e, p)],
                 transport := s.transport ++ [(mkUrl cfg e, sortParams p, [])],
                 cache := (cachePut s.cache s.cacheSize (e, sortParams p) body).1,
                 cacheSize := (cachePut s.cache s.cacheSize (e, sortParams p) body).2 } := by
  unfold make_tmdb_request make_tmdb_request_cached rawRequest
  have h4 : ¬(400 ≤ status) := by omega
  simp [hmiss, hresp, h4]

/-- External behaviour whose transport always answers 404. -/
def x404 : External :=
  { respond := fun _ _ _ => .resp 404 Json.null, plexEdit := fun _ _ => Option.none }

/-- C7 counterexample: a direct lookup answered with a not-found (404)
response makes resolution raise `TMDBError` — it does not return `None`
— and the worker reports an `"Error: ..."` outcome rather than
`"No TMDB match found"`. -/
theorem claim_C7_counterexample :
    (∃ s', get_tmdb_data x404 cfgW itemUpd initSt
      = .err (.tmdbError
          "TMDB API request failed: HTTP 404 for url: https://api.themoviedb.org/3/movie/7") s')
    ∧ ∃ s'', update_item x404 cfgW itemUpd initSt
      = .ok ("W1",
          "Error: TMDB API request failed: HTTP 404 for url: https://api.themoviedb.org/3/movie/7") s'' :=
  ⟨⟨_, rfl⟩, ⟨_, rfl⟩⟩

/-- C7 amended: for every item whose extracted TMDB id is non-empty but
stale/missing upstream (uncached direct lookup answered with a non-2xx
status), resolution raises `TMDBError` instead of returning `None`, and
the worker converts it into an `"Error: ..."` outcome. -/
theorem claim_C7_amended (x : External) (cfg : Config) (item : Item) (s : St)
    (tid : String) (status : Nat) (body : Json)
    (hid : get_tmdb_id item = some tid) (hne : tid ≠ "")
    (hmiss : cacheLookup s.cache (mediaTypeOf item ++ "/" ++ tid, []) = Option.none)
    (hresp : x.respond (mkUrl cfg (mediaTypeOf item ++ "/" ++ tid)) [] [] = .resp status body)
    (hst : 400 ≤ status) :
    ∃ s', get_tmdb_data x cfg item s
        = .err (.tmdbError ("TMDB API request failed: "
            ++ httpMsg status (mkUrl cfg (mediaTypeOf item ++ "/" ++ tid)))) s'
      ∧ update_item x cfg item s
        = .ok (item.title, "Error: " ++ ("TMDB API request failed: "
            ++ httpMsg status (mkUrl cfg (mediaTypeOf item ++ "/" ++ tid)))) s' := by
  have h := make_tmdb_request_err x cfg (mediaTypeOf item ++ "/" ++ tid) [] s status body
    hmiss hresp hst
  have hgtd : get_tmdb_data x cfg item s
      = .err (.tmdbError ("TMDB API request failed: "
          ++ httpMsg status (mkUrl cfg (mediaTypeOf item ++ "/" ++ tid))))
        { s with requests := s.requests ++ [(mediaTypeOf item ++ "/" ++ tid, [])],
                 transport := s.transport ++ [(mkUrl cfg (mediaTypeOf item ++ "/" ++ tid), [], [])] } := by
    unfold get_tmdb_data
    rw [hid]
    show (if tid = "" then search_tmdb x cfg item s
      else make_tmdb_request x cfg (mediaTypeOf item ++ "/" ++ tid) [] [] s) = _
    rw [if_neg hne]
    exact h
  refine ⟨_, hgtd, ?_⟩
  unfold update_item update_item_body
  rw [hgtd]
  rfl

/-- C7 witness: `claim_C7_amended` at the concrete 404 scenario. -/
theorem claim_C7_witness :
    ∃ s', get_tmdb_data x404 cfgW itemUpd initSt
        = .err (.tmdbError ("TMDB API request failed: " ++ httpMsg 404 (mkUrl cfgW "movie/7"))) s'
      ∧ update_item x404 cfgW itemUpd initSt
        = .ok ("W1", "Error: " ++ ("TMDB API request failed: " ++ httpMsg 404 (mkUrl cfgW "movie/7"))) s' := by
  have h := claim_C7_amended x404 cfgW itemUpd initSt "7" 404 Json.null rfl (by decide) rfl rfl
    (by decide)
  exact h

/-- When the extracted TMDB id is falsy, resolution is exactly the
search fallback. -/
theorem gtd_eq_search_of_falsy (x : External) (cfg : Config) (item : Item)
    (h : truthyId (get_tmdb_id item) = false) :
    get_tmdb_data x cfg item = search_tmdb x cfg item := by
  unfold get_tmdb_data
  cases hg : get_tmdb_id item with
  | none => rfl
  | some tid =>
    rw [hg] at h
    have htid : tid = "" := by simpa [truthyId, String.isEmpty_iff] using h
    funext s
    simp [htid]

/-- `next(iter(l), None)` on a list is its head, or `None` when empty. -/
theorem firstOrNone_arr (rs : List Json) : firstOrNone (.arr rs) = .ok (rs.headD Json.null) := by
  cases rs <;> rfl

/-- C8 counterexample: for an item with no year, the single search call
carries the parameter pair `("year", None)` — the year key is present
with a null value, not omitted as the claim states. -/
theorem claim_C8_counterexample :
    (get_tmdb_data xEmptySearch cfgW itemNoGuids initSt).state.requests
      = [("search/movie", [("query", PVal.str "N"), ("year", PVal.none)])]
    ∧ List.lookup "year" [("query", PVal.str "N"), ("year", PVal.none)] = some PVal.none
    ∧ itemNoGuids.year = Option.none := by
  refine ⟨rfl, by decide, rfl⟩

/-- C8 amended: for every item with a falsy TMDB id, resolution issues
exactly one search call whose parameters are query = the item's title
and year = the item's year, the year value being null (still present)
when the item has no year; and when the (uncached) search succeeds with
a record carrying a `"results"` list, resolution returns the first
element of that list, or `None` when it is empty. -/
theorem claim_C8_amended (x : External) (cfg : Config) (item : Item) (s : St)
    (h : truthyId (get_tmdb_id item) = false) :
    ((get_tmdb_data x cfg item s).state.requests
      = s.requests ++ [("search/" ++ mediaTypeOf item,
          [("query", PVal.str item.title), ("year", yearPVal item.year)])])
    ∧ (∀ status bl rs,
        cacheLookup s.cache ("search/" ++ mediaTypeOf item, searchParams item) = Option.none →
        x.respond (mkUrl cfg ("search/" ++ mediaTypeOf item)) (searchParams item) []
          = .resp status (Json.obj bl) →
        status < 400 → bl ≠ [] → bl.lookup "results" = some (Json.arr rs) →
        get_tmdb_data x cfg item s = .ok (rs.headD Json.null)
          { s with
            requests := s.requests ++ [("search/" ++ mediaTypeOf item, searchParams item)],
            transport := s.transport
              ++ [(mkUrl cfg ("search/" ++ mediaTypeOf item), sortParams (searchParams item), [])],
            cache := (cachePut s.cache s.cacheSize
              ("search/" ++ mediaTypeOf item, sortParams (searchParams item)) (Json.obj bl)).1,
            cacheSize := (cachePut s.cache s.cacheSize
              ("search/" ++ mediaTypeOf item, sortParams (searchParams item)) (Json.obj bl)).2 }) := by
  constructor
  · rw [gtd_eq_search_of_falsy x cfg item h]
    exact search_tmdb_requests x cfg item s
  · intro status bl rs hmiss hresp hst hbl hres
    rw [gtd_eq_search_of_falsy x cfg item h]
    have hmk := make_tmdb_request_ok x cfg ("search/" ++ mediaTypeOf item) (searchParams item) s
      status (Json.obj bl)
      (by rwa [sortParams_searchParams]) (by rwa [sortParams_searchParams]) hst
    unfold search_tmdb
    rw [hmk]
    have htr : (Json.obj bl).truthy = true := by
      cases bl with
      | nil => exact absurd rfl hbl
      | cons a t => simp [Json.truthy]
    simp [htr, jsonGetDefault, hres, firstOrNone_arr]

/-- External behaviour answering every search with one result record. -/
def xSearchHit : External :=
  { respond := fun _ _ _ =>
      .resp 200 (Json.obj [("results", Json.arr [Json.obj [("overview", Json.str "o")]])]),
    plexEdit := fun _ _ => Option.none }

/-- C8 witness: `claim_C8_amended` at a concrete year-less item — the
search call carries the null year pair, and resolution returns the first
search result. -/
theorem claim_C8_witness :
    ((get_tmdb_data xSearchHit cfgW itemNoGuids initSt).state.requests
      = [("search/movie", [("query", PVal.str "N"), ("year", PVal.none)])])
    ∧ ∃ s', get_tmdb_data xSearchHit cfgW itemNoGuids initSt
        = .ok (Json.obj [("overview", Json.str "o")]) s' := by
  constructor
  · have h1 := (claim_C8_amended xSearchHit cfgW itemNoGuids initSt (by decide)).1
    simpa [itemNoGuids, yearPVal] using h1
  · have h2 := (claim_C8_amended xSearchHit cfgW itemNoGuids initSt (by decide)).2 200
      [("results", Json.arr [Json.obj [("overview", Json.str "o")]])]
      [Json.obj [("overview", Json.str "o")]] rfl rfl (by decide) (by simp) rfl
    exact ⟨_, h2⟩

/-- Environment in which the Plex server is unreachable but all three
environment variables are set, and the library is non-empty. -/
def env9 : OsEnv :=
  { plex_url := some "http://p", plex_token := some "t", tmdb_api_key := some "k",
    plexConnect := fun _ => false, connErrMsg := "connection refused",
    sections := [{ title := "Movies", type := "movie", items := [itemNoGuids] }] }

/-- C9 counterexample: a run that fails at startup because the initial
connection to the library server fails dies at the module-level
`PlexServer(...)` call, before `main()`'s handler exists: it exits
non-zero and processes nothing, but its exit message is the interpreter
traceback, not a message prefixed `"Error: "`. -/
theorem claim_C9_counterexample :
    runProcess env9 xUpd
      = { exitCode := 1, message := uncaughtMsg "connection refused", finalSt := initSt }
    ∧ strStartsWith (uncaughtMsg "connection refused") "Error: " = false
    ∧ env9.sections ≠ [] := by
  refine ⟨rfl, by decide, by simp [env9]⟩

/-- C9 amended: every startup failure (module-level connection failure,
missing required configuration, or a failed connection inside the
updater's init) exits with code 1 and performs no item processing; the
exit message carries the `"Error: "` label exactly when the failure is
raised inside `main()`'s handler — a module-import connection failure
instead dies with an unprefixed interpreter traceback. -/
theorem claim_C9_amended (env : OsEnv) (x : External) :
    (env.plexConnect env.plex_url = false →
      runProcess env x = { exitCode := 1, message := uncaughtMsg env.connErrMsg, finalSt := initSt })
    ∧ (env.plexConnect env.plex_url = true → missing_fields (mkConfig env) ≠ [] →
      runProcess env x =
        { exitCode := 1,
          message := ("Error: " ++ "Missing required configuration: "
            ++ strJoin ", " (missing_fields (mkConfig env))),
          finalSt := initSt })
    ∧ (env.plexConnect env.plex_url = true → missing_fields (mkConfig env) = [] →
        env.plexConnect (some (mkConfig env).plex_url) = false →
      runProcess env x =
        { exitCode := 1,
          message := "Error: " ++ "Failed to connect to Plex: " ++ env.connErrMsg,
          finalSt := initSt }) := by
  refine ⟨?_, ?_, ?_⟩
  · intro h
    simp [runProcess, h]
  · intro hc hm
    simp [runProcess, hc, runMain, hm]
  · intro hc hm hcc
    simp [runProcess, hc, runMain, hm, hcc]

/-- Environment with the TMDB key unset but a reachable Plex server. -/
def envNoKey : OsEnv :=
  { plex_url := some "http://p", plex_token := some "t", tmdb_api_key := Option.none,
    plexConnect := fun _ => true, connErrMsg := "unused",
    sections := [] }

/-- C9 witness: `claim_C9_amended` at two concrete environments — the
unreachable-server run (traceback, exit 1, nothing processed) and the
missing-key run (`"Error: "`-labelled message, exit 1, nothing
processed). -/
theorem claim_C9_witness :
    runProcess env9 xUpd
      = { exitCode := 1, message := uncaughtMsg "connection refused", finalSt := initSt }
    ∧ runProcess envNoKey xUpd
      = { exitCode := 1, message := "Error: Missing required configuration: tmdb_api_key",
          finalSt := initSt } := by
  constructor
  · exact (claim_C9_amended env9 xUpd).1 rfl
  · have h := (claim_C9_amended envNoKey xUpd).2.1 rfl (by decide)
    simpa using h

/-- A cache hit on the front entry returns it and leaves the cache
unchanged. -/
theorem cacheLookup_front (key : CacheKey) (v : Json) (rest : List (CacheKey × Json)) :
    cacheLookup ((key, v) :: rest) key = some (v, (key, v) :: rest) := by
  simp [cacheLookup, cacheFind]

/-- A successful cache lookup leaves the looked-up entry at the front of
the reordered cache. -/
theorem cacheLookup_shape (c : List (CacheKey × Json)) (key : CacheKey) (v : Json)
    (c' : List (CacheKey × Json)) (h : cacheLookup c key = some (v, c')) :
    ∃ rest, c' = (key, v) :: rest := by
  unfold cacheLookup at h
  cases hf : cacheFind c key with
  | none => rw [hf] at h; simp at h
  | some vr =>
    obtain ⟨v0, rest⟩ := vr
    rw [hf] at h
    simp at h
    exact ⟨rest, by rw [← h.1, ← h.2]⟩

/-- After a successful parameter-only request, the memoized entry sits
at the front of the cache. -/
theorem make_tmdb_request_ok_front (x : External) (cfg : Config) (e : String)
    (p : List (String × PVal)) (s : St) (v : Json) (s1 : St)
    (h : make_tmdb_request x cfg e p [] s = .ok v s1) :
    ∃ rest, s1.cache = ((e, sortParams p), v) :: rest := by
  unfold make_tmdb_request make_tmdb_request_cached at h
  simp only [List.isEmpty_nil, if_true] at h
  cases hcl : cacheLookup s.cache (e, sortParams p) with
  | some vc =>
    obtain ⟨v0, c'⟩ := vc
    rw [hcl] at h
    simp at h
    obtain ⟨hv, hs⟩ := h
    subst hv
    obtain ⟨rest, hrest⟩ := cacheLookup_shape s.cache (e, sortParams p) _ c' hcl
    exact ⟨rest, by rw [← hs, hrest]⟩
  | none =>
    rw [hcl] at h
    cases hr : rawRequest x cfg e (sortParams p) []
        { s with requests := s.requests ++ [(e, p)] } with
    | ok v0 s2 =>
      rw [hr] at h
      simp at h
      obtain ⟨hv, hs⟩ := h
      subst hv
      rw [← hs]
      unfold cachePut
      by_cases hsz : s2.cacheSize ≥ lruMaxsize
      · exact ⟨s2.cache.dropLast, by simp [hsz]⟩
      · exact ⟨s2.cache, by simp [hsz]⟩
    | err e0 s2 => rw [hr] at h; simp at h

/-- C5 amended: an immediately repeated identical parameter-only request
is answered from the memo cache — same value, no new transport call, no
cache change (only the invocation trace grows) — while any request
carrying extra keyword options bypasses the cache entirely (one
transport call, cache untouched). Entries do NOT live for the process
lifetime unconditionally: the cache is an LRU bounded at 1024 entries
(see the separate eviction counterexample). -/
theorem claim_C5_amended :
    (∀ (x : External) (cfg : Config) (e : String) (p : List (String × PVal))
        (s : St) (v : Json) (s1 : St),
      make_tmdb_request x cfg e p [] s = .ok v s1 →
      make_tmdb_request x cfg e p [] s1 = .ok v { s1 with requests := s1.requests ++ [(e, p)] })
    ∧ (∀ (x : External) (cfg : Config) (e : String) (p kw : List (String × PVal)) (s : St),
      kw ≠ [] →
      (make_tmdb_request x cfg e p kw s).state.transport = s.transport ++ [(mkUrl cfg e, p, kw)]
      ∧ (make_tmdb_request x cfg e p kw s).state.cache = s.cache) := by
  constructor
  · intro x cfg e p s v s1 h
    obtain ⟨rest, hfront⟩ := make_tmdb_request_ok_front x cfg e p s v s1 h
    unfold make_tmdb_request make_tmdb_request_cached
    simp only [List.isEmpty_nil, if_true]
    have : cacheLookup ({ s1 with requests := s1.requests ++ [(e, p)] } : St).cache
        (e, sortParams p) = some (v, ((e, sortParams p), v) :: rest) := by
      show cacheLookup s1.cache (e, sortParams p) = _
      rw [hfront]
      exact cacheLookup_front _ _ _
    rw [this]
    simp [hfront]
  · intro x cfg e p kw s hkw
    have hne : kw.isEmpty = false := by
      cases kw with
      | nil => exact absurd rfl hkw
      | cons a t => rfl
    unfold make_tmdb_request
    simp only [hne, Bool.false_eq_true, if_false]
    rw [rawRequest_state]
    exact ⟨rfl, rfl⟩

/-- External behaviour answering every request 200 with a null body. -/
def x5 : External :=
  { respond := fun _ _ _ => .resp 200 Json.null, plexEdit := fun _ _ => Option.none }

/-- C5 witness: `claim_C5_amended` at concrete requests — the repeat of
a just-issued request is served from the cache, and a request with an
extra keyword option leaves the cache untouched while hitting the
transport once. -/
theorem claim_C5_witness :
    (∃ v s1, make_tmdb_request x5 cfgW "e" [("k", PVal.num 0)] [] initSt = .ok v s1
      ∧ make_tmdb_request x5 cfgW "e" [("k", PVal.num 0)] [] s1
          = .ok v { s1 with requests := s1.requests ++ [("e", [("k", PVal.num 0)])] })
    ∧ (make_tmdb_request x5 cfgW "e" [] [("h", PVal.str "v")] initSt).state.cache = []
    ∧ (make_tmdb_request x5 cfgW "e" [] [("h", PVal.str "v")] initSt).state.transport
        = [(mkUrl cfgW "e", [], [("h", PVal.str "v")])] := by
  refine ⟨⟨Json.null, _, rfl,
    claim_C5_amended.1 x5 cfgW "e" [("k", PVal.num 0)] initSt Json.null _ rfl⟩, ?_, ?_⟩
  · exact (claim_C5_amended.2 x5 cfgW "e" [] [("h", PVal.str "v")] initSt (by simp)).2
  · have h := (claim_C5_amended.2 x5 cfgW "e" [] [("h", PVal.str "v")] initSt (by simp)).1
    simpa using h

/-- `runRequests` distributes over list append. -/
theorem runRequests_append (x : External) (cfg : Config)
    (l1 l2 : List (String × List (String × PVal) × List (String × PVal))) (s : St) :
    runRequests x cfg (l1 ++ l2) s = runRequests x cfg l2 (runRequests x cfg l1 s) := by
  induction l1 generalizing s with
  | nil => rfl
  | cons r t ih =>
    obtain ⟨e, p, kw⟩ := r
    simp [runRequests, ih]

/-- A key matching no cache entry is not found. -/
theorem cacheFind_of_not_mem (l : List (CacheKey × Json)) (key : CacheKey)
    (h : ∀ kv ∈ l, kv.1 ≠ key) : cacheFind l key = Option.none := by
  induction l with
  | nil => rfl
  | cons kv t ih =>
    obtain ⟨k, v⟩ := kv
    have hk : k ≠ key := by simpa using h (k, v) (by simp)
    have ih' : cacheFind t key = Option.none := ih (fun kv' hm => h kv' (List.mem_cons_of_mem _ hm))
    simp [cacheFind, hk, ih']

/-- A key matching no cache entry yields a cache miss. -/
theorem cacheLookup_of_not_mem (l : List (CacheKey × Json)) (key : CacheKey)
    (h : ∀ kv ∈ l, kv.1 ≠ key) : cacheLookup l key = Option.none := by
  simp [cacheLookup, cacheFind_of_not_mem l key h]

/-- The 1025 distinct request keys of the eviction scenario. -/
def c5key (i : Nat) : CacheKey := ("e", [("k", PVal.num (Int.ofNat i))])

/-- The eviction-scenario requests: endpoint `"e"`, one distinct integer
parameter, no extra keyword options. -/
def c5req (i : Nat) : String × List (String × PVal) × List (String × PVal) :=
  ("e", [("k", PVal.num (Int.ofNat i))], [])

/-- 1025 distinct requests followed by a repeat of the first one. -/
def c5seq : List (String × List (String × PVal) × List (String × PVal)) :=
  (List.range 1025).map c5req ++ [c5req 0]

/-- The url of the eviction-scenario endpoint. -/
def c5url : String := mkUrl cfgW "e"

/-- The process state after the first `n` eviction-scenario requests:
the cache holds the `min n 1024` most recent keys (most recent first),
and every request so far has hit the transport. -/
def c5St (n : Nat) : St :=
  { cache := (((List.range n).reverse).take lruMaxsize).map (fun j => (c5key j, Json.null)),
    cacheSize := min n lruMaxsize,
    transport := (List.range n).map (fun i => (c5url, [("k", PVal.num (Int.ofNat i))], [])),
    requests := (List.range n).map (fun i => ("e", [("k", PVal.num (Int.ofNat i))])),
    writes := [] }

/-- The scenario keys are distinct. -/
theorem c5key_inj {i j : Nat} (h : c5key i = c5key j) : i = j := by
  simpa [c5key] using h

/-- Every cache entry of `c5St n` is keyed by some `c5key j` with `j < n`. -/
theorem c5_cache_mem (n : Nat) (kv : CacheKey × Json) (hkv : kv ∈ (c5St n).cache) :
    ∃ j, j < n ∧ kv = (c5key j, Json.null) := by
  simp only [c5St, List.mem_map] at hkv
  obtain ⟨j, hj, he⟩ := hkv
  have hj2 : j ∈ (List.range n).reverse := List.mem_of_mem_take hj
  exact ⟨j, by simpa using hj2, he.symm⟩

/-- The key of the next request is fresh in `c5St n`. -/
theorem c5_fresh (n : Nat) : ∀ kv ∈ (c5St n).cache, kv.1 ≠ c5key n := by
  intro kv hkv
  obtain ⟨j, hj, rfl⟩ := c5_cache_mem n kv hkv
  exact fun h => Nat.ne_of_lt hj (c5key_inj h)

/-- The cache-insertion step of the eviction scenario: inserting the
fresh key `c5key n` into the cache of `c5St n` yields the cache of
`c5St (n+1)` (evicting the oldest entry once the cache is full). -/
theorem c5_put (n : Nat) :
    cachePut ((((List.range n).reverse).take lruMaxsize).map (fun j => (c5key j, Json.null)))
        (min n lruMaxsize) (c5key n) Json.null
      = ((((List.range (n + 1)).reverse).take lruMaxsize).map (fun j => (c5key j, Json.null)),
         min (n + 1) lruMaxsize) := by
  have hlen : ((List.range n).reverse).length = n := by simp
  have hrev : (List.range (n + 1)).reverse = n :: (List.range n).reverse := by
    rw [List.range_succ, List.reverse_append, List.reverse_cons, List.reverse_nil,
      List.nil_append, List.singleton_append]
  by_cases h : n < lruMaxsize
  · have hsz : ¬ (min n lruMaxsize ≥ lruMaxsize) := by
      simp only [lruMaxsize] at *
      omega
    rw [cachePut, if_neg hsz]
    refine Prod.ext ?_ ?_
    · show (c5key n, Json.null) :: _ = _
      rw [List.take_of_length_le (by omega), hrev,
        List.take_of_length_le (by simp only [List.length_cons, hlen, lruMaxsize] at *; omega),
        List.map_cons]
    · show min n lruMaxsize + 1 = min (n + 1) lruMaxsize
      simp only [lruMaxsize] at *
      omega
  · have hsz : min n lruMaxsize ≥ lruMaxsize := by
      simp only [lruMaxsize] at *
      omega
    rw [cachePut, if_pos hsz]
    have hW24 : (((List.range n).reverse).take lruMaxsize).length = lruMaxsize := by
      rw [List.length_take, hlen]
      simp only [lruMaxsize] at *
      omega
    refine Prod.ext ?_ ?_
    · show (c5key n, Json.null) :: _ = _
      rw [List.dropLast_eq_take, List.length_map, hW24, ← List.map_take, List.take_take,
        hrev, show lruMaxsize = 1023 + 1 from rfl, List.take_succ_cons, List.map_cons]
      have : min (1023 + 1 - 1) (1023 + 1) = 1023 := by omega
      rw [this]
    · show min n lruMaxsize = min (n + 1) lruMaxsize
      simp only [lruMaxsize] at *
      omega

/-- Two states with equal fields are equal. -/
theorem St.ext_fields (a b : St) (h1 : a.cache = b.cache) (h2 : a.cacheSize = b.cacheSize)
    (h3 : a.transport = b.transport) (h4 : a.requests = b.requests)
    (h5 : a.writes = b.writes) : a = b := by
  cases a
  cases b
  simp_all

/-- One full request step of the eviction scenario. -/
theorem c5_step (n : Nat) :
    (make_tmdb_request x5 cfgW "e" [("k", PVal.num (Int.ofNat n))] [] (c5St n)).state
      = c5St (n + 1) := by
  have hmiss : cacheLookup (c5St n).cache ("e", sortParams [("k", PVal.num (Int.ofNat n))])
      = Option.none :=
    cacheLookup_of_not_mem _ _ (c5_fresh n)
  have h := make_tmdb_request_ok x5 cfgW "e" [("k", PVal.num (Int.ofNat n))] (c5St n) 200
    Json.null hmiss rfl (by omega)
  rw [h]
  refine St.ext_fields _ _ ?_ ?_ ?_ ?_ ?_
  · show (cachePut ((((List.range n).reverse).take lruMaxsize).map (fun j => (c5key j, Json.null)))
        (min n lruMaxsize) (c5key n) Json.null).1
      = (((List.range (n + 1)).reverse).take lruMaxsize).map (fun j => (c5key j, Json.null))
    rw [c5_put n]
  · show (cachePut ((((List.range n).reverse).take lruMaxsize).map (fun j => (c5key j, Json.null)))
        (min n lruMaxsize) (c5key n) Json.null).2
      = min (n + 1) lruMaxsize
    rw [c5_put n]
  · show (c5St n).transport ++ [(c5url, [("k", PVal.num (Int.ofNat n))], [])]
      = (c5St (n + 1)).transport
    simp [c5St, List.range_succ]
  · show (c5St n).requests ++ [("e", [("k", PVal.num (Int.ofNat n))])]
      = (c5St (n + 1)).requests
    simp [c5St, List.range_succ]
  · rfl

/-- Running the first `n` eviction-scenario requests from the empty
state reaches `c5St n`. -/
theorem c5_run (n : Nat) :
    runRequests x5 cfgW ((List.range n).map c5req) initSt = c5St n := by
  induction n with
  | zero => rfl
  | succ n ih =>
    rw [List.range_succ, List.map_append, runRequests_append, ih]
    show (make_tmdb_request x5 cfgW "e" [("k", PVal.num (Int.ofNat n))] [] (c5St n)).state
      = c5St (n + 1)
    exact c5_step n

/-- A member of the first 1024 elements of `(range 1025).reverse` is at
least 1 — the element 0 sits last and is dropped by `take 1024`. -/
theorem c5_take_mem_pos (j : Nat) (h : j ∈ ((List.range 1025).reverse).take 1024) : 1 ≤ j := by
  have h1 : List.range 1025 = 0 :: (List.range 1024).map (· + 1) := List.range_succ_eq_map 1024
  rw [h1, List.reverse_cons] at h
  have hlen : (((List.range 1024).map (· + 1)).reverse).length = 1024 := by simp
  rw [List.take_left' hlen] at h
  simp only [List.mem_reverse, List.mem_map] at h
  obtain ⟨a, _, rfl⟩ := h
  omega

set_option maxRecDepth 4000 in
/-- The first request's key has been evicted from the cache by the time
the 1025 distinct requests have run. -/
theorem c5_zero_evicted : ∀ kv ∈ (c5St 1025).cache, kv.1 ≠ c5key 0 := by
  intro kv hkv
  simp only [c5St, List.mem_map] at hkv
  obtain ⟨j, hj, he⟩ := hkv
  have h1 : 1 ≤ j := c5_take_mem_pos j hj
  rw [← he]
  intro hc
  have := c5key_inj hc
  omega

/-- C5 counterexample: the memo cache is NOT unbounded for the process
lifetime. Running 1025 distinct parameter-only requests and then
repeating the very first one performs 1026 transport calls — the repeat
of the first request (identical endpoint and parameter pairs, no extra
transport options) hits the transport again because
`lru_cache(maxsize=1024)` evicted its entry, contradicting both the
"second request returns the memoized result without a new transport
call" clause and the "entries live for the entire process lifetime with
no eviction policy" clause. -/
theorem claim_C5_counterexample :
    (runRequests x5 cfgW c5seq initSt).transport.length = 1026
    ∧ c5seq.length = 1026
    ∧ c5seq.head? = some ("e", [("k", PVal.num 0)], [])
    ∧ c5seq.getLast? = some ("e", [("k", PVal.num 0)], []) := by
  have hrun : runRequests x5 cfgW c5seq initSt
      = (make_tmdb_request x5 cfgW "e" [("k", PVal.num (Int.ofNat 0))] [] (c5St 1025)).state := by
    show runRequests x5 cfgW ((List.range 1025).map c5req ++ [c5req 0]) initSt = _
    rw [runRequests_append, c5_run 1025]
    rfl
  have hmiss : cacheLookup (c5St 1025).cache ("e", sortParams [("k", PVal.num (Int.ofNat 0))])
      = Option.none :=
    cacheLookup_of_not_mem _ _ c5_zero_evicted
  have h := make_tmdb_request_ok x5 cfgW "e" [("k", PVal.num (Int.ofNat 0))] (c5St 1025) 200
    Json.null hmiss rfl (by omega)
  refine ⟨?_, ?_, ?_, ?_⟩
  · rw [hrun, h]
    show ((c5St 1025).transport
      ++ [(mkUrl cfgW "e", sortParams [("k", PVal.num (Int.ofNat 0))], [])]).length = 1026
    rw [List.length_append]
    simp [c5St]
  · simp [c5seq]
  · show (((List.range 1025).map c5req) ++ [c5req 0]).head? = _
    rw [List.range_succ_eq_map, List.map_cons, List.cons_append, List.head?_cons]
    rfl
  · show (((List.range 1025).map c5req) ++ [c5req 0]).getLast? = _
    rw [List.getLast?_concat]
    rfl
